import Mathlib

/-!
Verification of the tab activity-tracking and eviction engine
(background monitoring logic of the extension, `src/popup/popup.js`).

Shallow embedding conventions:
* A browser tab is a record of the attributes the engine consumes.
* The `tabLastActive` JavaScript `Map` is embedded as a function
  `Nat → Option Int` (`none` = no entry); JavaScript millisecond
  timestamps are `Int`.
* The asynchronous host call `browser.tabs.discard` is embedded as an
  oracle `ok : Nat → Bool` saying whether discarding a given tab id
  succeeds; the scan records which ids it attempted and which succeeded.
* The `browser.tabs.query({})` snapshot is passed in as a `List Tab`;
  the `queried` flag of a scan result records whether the query was made.
-/

/-- A browser tab, with exactly the attributes the engine reads. -/
structure Tab where
  id : Nat
  active : Bool
  discarded : Bool
  pinned : Bool
  audible : Bool
  url : Option String
deriving DecidableEq

/-- The settings record (`DEFAULT_SETTINGS` shape in the source). -/
structure Settings where
  enabled : Bool
  inactiveTimeout : Int
  checkInterval : Int
  excludePinned : Bool
  excludeAudible : Bool
  minTabs : Int
deriving DecidableEq

/-- The `tabLastActive` map: tab id to last-active timestamp (ms). -/
abbrev Tracker := Nat → Option Int

/-- `tabLastActive.set(id, v)`. -/
def Tracker.set (tr : Tracker) (id : Nat) (v : Int) : Tracker :=
  fun k => if k = id then some v else tr k

/-- JavaScript falsiness of a `Map.get` result: `undefined` and `0` are
falsy, every other number is truthy (the source tests `if (!lastActive)`). -/
def jsFalsy : Option Int → Bool
  | none => true
  | some v => v == 0

/-- `tab.url?.startsWith('about:') || tab.url?.startsWith('moz-extension:')
|| tab.url?.startsWith('chrome:')` — an absent url is falsy, hence not
protected. -/
def isProtectedUrl : Option String → Bool
  | none => false
  | some u => u.startsWith "about:" || u.startsWith "moz-extension:" || u.startsWith "chrome:"

/-- `shouldExclude(tab)` from the source: fixed-order short-circuit checks. -/
def shouldExclude (s : Settings) (tab : Tab) : Bool :=
  if tab.active then true
  else if tab.discarded then true
  else if s.excludePinned && tab.pinned then true
  else if s.excludeAudible && tab.audible then true
  else if isProtectedUrl tab.url then true
  else false

/-- The exclusion checks inlined at the top of the scan loop of
`checkAndDiscardInactiveTabs` (the five `continue` guards, in source
order): active, discarded, pinned (if enabled), audible (if enabled),
protected url. -/
def scanExcludes (s : Settings) (tab : Tab) : Bool :=
  if tab.active then true
  else if tab.discarded then true
  else if s.excludePinned && tab.pinned then true
  else if s.excludeAudible && tab.audible then true
  else if isProtectedUrl tab.url then true
  else false

/-- `let lastActive = tabLastActive.get(tab.id); if (!lastActive)
lastActive = now - (timeoutMs + 1000)` — the value the scan uses. -/
def resolvedLastActive (tr : Tracker) (id : Nat) (now timeoutMs : Int) : Int :=
  if jsFalsy (tr id) then now - (timeoutMs + 1000) else (tr id).getD 0

/-- The tracker after the scan's lazy-tracking step: the synthesized
timestamp is persisted exactly when the lookup was falsy. -/
def trackerAfterResolve (tr : Tracker) (id : Nat) (now timeoutMs : Int) : Tracker :=
  if jsFalsy (tr id) then Tracker.set tr id (now - (timeoutMs + 1000)) else tr

/-- Mutable state threaded through the scan loop of
`checkAndDiscardInactiveTabs`: `discardedCount`, the `tabLastActive` map,
and the trace of successful / attempted `browser.tabs.discard` calls. -/
@[ext]
structure ScanState where
  count : Nat
  tracker : Tracker
  evicted : List Nat
  attempted : List Nat

/-- The `for (const tab of tabs)` loop body of
`checkAndDiscardInactiveTabs` (source lines 293–347): skip excluded tabs,
lazily track untracked ones with an already-stale timestamp, and on an
idle tab either break on the minimum-tabs floor or attempt a discard,
counting only successes. `eligLen` is `activeTabs.length`, computed once
before the loop. -/
def scanLoop (s : Settings) (now timeoutMs eligLen : Int) (ok : Nat → Bool)
    (l : List Tab) (st : ScanState) : ScanState :=
  match l with
  | [] => st
  | tab :: rest =>
    if scanExcludes s tab then
      scanLoop s now timeoutMs eligLen ok rest st
    else
      let lastActive := resolvedLastActive st.tracker tab.id now timeoutMs
      let tr1 := trackerAfterResolve st.tracker tab.id now timeoutMs
      if now - lastActive > timeoutMs then
        if eligLen - (st.count : Int) ≤ s.minTabs then
          { st with tracker := tr1 }
        else if ok tab.id then
          scanLoop s now timeoutMs eligLen ok rest
            { count := st.count + 1, tracker := tr1,
              evicted := st.evicted ++ [tab.id],
              attempted := st.attempted ++ [tab.id] }
        else
          scanLoop s now timeoutMs eligLen ok rest
            { count := st.count, tracker := tr1,
              evicted := st.evicted,
              attempted := st.attempted ++ [tab.id] }
      else
        scanLoop s now timeoutMs eligLen ok rest { st with tracker := tr1 }

/-- `tabs.filter(t => !t.discarded).length` — the eligible pool used for
the minimum-tabs floor. -/
def eligibleCount (tabs : List Tab) : Nat :=
  (tabs.filter fun t => !t.discarded).length

/-- Result of a scheduled scan: the returned `discardedCount`, the final
tracker map, the trace of discards, and whether the tab query was made. -/
structure ScanResult where
  count : Nat
  tracker : Tracker
  evicted : List Nat
  attempted : List Nat
  queried : Bool

/-- `checkAndDiscardInactiveTabs()` (source lines 276–350): if disabled,
return 0 with no side effects; otherwise query the tabs, compute
`timeoutMs` and the eligible pool size, and run the scan loop. -/
def checkAndDiscardInactiveTabs (s : Settings) (tabs : List Tab) (now : Int)
    (tr : Tracker) (ok : Nat → Bool) : ScanResult :=
  if !s.enabled then
    { count := 0, tracker := tr, evicted := [], attempted := [], queried := false }
  else
    let timeoutMs := s.inactiveTimeout * 1000
    let st := scanLoop s now timeoutMs ((eligibleCount tabs : Int)) ok tabs
      { count := 0, tracker := tr, evicted := [], attempted := [] }
    { count := st.count, tracker := st.tracker, evicted := st.evicted,
      attempted := st.attempted, queried := true }

/-- Result of the force-discard path: returned count plus the discard trace. -/
structure ForceResult where
  count : Nat
  evicted : List Nat
  attempted : List Nat
deriving DecidableEq

/-- The loop of `forceDiscardInactiveTabs`: skip tabs for which
`shouldExclude` holds, attempt a discard on every other tab, count
successes. -/
def forceLoop (s : Settings) (ok : Nat → Bool) : List Tab → ForceResult
  | [] => { count := 0, evicted := [], attempted := [] }
  | tab :: rest =>
    if shouldExclude s tab then
      forceLoop s ok rest
    else
      let r := forceLoop s ok rest
      if ok tab.id then
        { count := r.count + 1, evicted := tab.id :: r.evicted,
          attempted := tab.id :: r.attempted }
      else
        { count := r.count, evicted := r.evicted,
          attempted := tab.id :: r.attempted }

/-- `forceDiscardInactiveTabs()` (source lines 353–374): ignores the idle
timeout and the minimum-tabs floor entirely. -/
def forceDiscardInactiveTabs (s : Settings) (tabs : List Tab) (ok : Nat → Bool) :
    ForceResult :=
  forceLoop s ok tabs

/-- `initializeTabTracking()` (source lines 135–148): seed every
enumerated tab's timestamp with the current time (both branches of the
source's `if (tab.active)` store `now`). -/
def initializeTabTracking (tabs : List Tab) (now : Int) (tr : Tracker) : Tracker :=
  match tabs with
  | [] => tr
  | tab :: rest =>
    initializeTabTracking rest now
      (if tab.active then Tracker.set tr tab.id now else Tracker.set tr tab.id now)

/-! Concrete fixtures for the spec's scenarios. -/

/-- Scenario A settings: timeout 30 s, floor 1. -/
def sA : Settings :=
  { enabled := true, inactiveTimeout := 30, checkInterval := 5,
    excludePinned := false, excludeAudible := true, minTabs := 1 }

/-- A plain idle tab with the given id (not active, pinned, audible or
discarded, no url — hence not a protected page). -/
def plainTab (id : Nat) : Tab :=
  { id := id, active := false, discarded := false, pinned := false,
    audible := false, url := none }

/-- Scenario A tabs: one active tab and three idle ones. -/
def tabsA : List Tab :=
  { plainTab 1 with active := true } :: plainTab 2 :: plainTab 3 :: plainTab 4 :: []

/-- Scenario A tracker: the active tab last active now (100000 ms), the
three idle tabs last active 40 s ago (60000 ms). -/
def trA : Tracker :=
  fun k => if k = 1 then some 100000
    else if 2 ≤ k ∧ k ≤ 4 then some 60000 else none

/-- A discard oracle under which every discard succeeds. -/
def okTrue : Nat → Bool := fun _ => true

/-- Scenario B settings: pinned tabs excluded. -/
def sB : Settings :=
  { enabled := true, inactiveTimeout := 30, checkInterval := 5,
    excludePinned := true, excludeAudible := true, minTabs := 1 }

/-- Scenario B tabs: five tabs, the first two pinned. -/
def tabsB : List Tab :=
  { plainTab 1 with pinned := true } :: { plainTab 2 with pinned := true } ::
    plainTab 3 :: plainTab 4 :: plainTab 5 :: []

/-! Theorems. -/

/-- Claim C2: with Scenario A settings (timeout 30 s, floor 1), one active
tab and three tabs idle 40 s, a single scheduled scan at `now = 100000`
evicts exactly the three idle tabs and returns the literal count 3. -/
theorem scenarioA_scan_returns_three :
    (checkAndDiscardInactiveTabs sA tabsA 100000 trA okTrue).count = 3 ∧
    (checkAndDiscardInactiveTabs sA tabsA 100000 trA okTrue).evicted = [2, 3, 4] := by
  constructor <;> decide

/-- Claim C3: the exclusion checks inlined in the scheduled scan compute
exactly `shouldExclude`, and whenever `shouldExclude` holds of a tab the
scan loop skips it, leaving the state untouched and moving to the rest. -/
theorem scan_exclusion_matches_shouldExclude (s : Settings) (tab : Tab) :
    scanExcludes s tab = shouldExclude s tab ∧
    (∀ (now timeoutMs eligLen : Int) (ok : Nat → Bool) (rest : List Tab)
      (st : ScanState), shouldExclude s tab = true →
      scanLoop s now timeoutMs eligLen ok (tab :: rest) st =
        scanLoop s now timeoutMs eligLen ok rest st) := by
  refine ⟨rfl, ?_⟩
  intro now timeoutMs eligLen ok rest st h
  have hx : scanExcludes s tab = true := h
  simp [scanLoop, hx]

/-- Witness for C3 at a concrete excluded tab. -/
theorem scan_exclusion_matches_shouldExclude_witness :
    scanLoop sA 100000 30000 4 okTrue ({ plainTab 7 with discarded := true } :: [])
        { count := 0, tracker := trA, evicted := [], attempted := [] } =
      scanLoop sA 100000 30000 4 okTrue []
        { count := 0, tracker := trA, evicted := [], attempted := [] } :=
  (scan_exclusion_matches_shouldExclude sA { plainTab 7 with discarded := true }).2
    100000 30000 4 okTrue [] _ (by decide)

/-- Claim C4: `shouldExclude` checks, in order: active, discarded,
pinned-with-setting, audible-with-setting, protected scheme. An active
tab is excluded whatever its other fields, a discarded tab is excluded,
and a tab matching none of the five conditions is not excluded. -/
theorem shouldExclude_fixed_order (s : Settings) (tab : Tab) :
    (tab.active = true → shouldExclude s tab = true) ∧
    (tab.discarded = true → shouldExclude s tab = true) ∧
    (tab.active = false → tab.discarded = false →
      (s.excludePinned && tab.pinned) = false →
      (s.excludeAudible && tab.audible) = false →
      isProtectedUrl tab.url = false →
      shouldExclude s tab = false) := by
  refine ⟨fun h => by simp [shouldExclude, h], fun h => by simp [shouldExclude, h], ?_⟩
  intro h1 h2 h3 h4 h5
  simp [shouldExclude, h1, h2, h3, h4, h5]

/-- Witness for C4 at concrete tabs. -/
theorem shouldExclude_fixed_order_witness :
    shouldExclude sA { plainTab 1 with active := true, pinned := true } = true ∧
    shouldExclude sA { plainTab 2 with discarded := true } = true ∧
    shouldExclude sA (plainTab 3) = false :=
  ⟨(shouldExclude_fixed_order sA { plainTab 1 with active := true, pinned := true }).1 rfl,
   (shouldExclude_fixed_order sA { plainTab 2 with discarded := true }).2.1 rfl,
   (shouldExclude_fixed_order sA (plainTab 3)).2.2 rfl rfl rfl rfl rfl⟩

/-- Settings with the engine disabled, for witnesses. -/
def sOff : Settings :=
  { enabled := false, inactiveTimeout := 30, checkInterval := 5,
    excludePinned := false, excludeAudible := true, minTabs := 1 }

/-- Claim C7: with `settings.enabled = false` a scheduled scan returns 0
and has no side effects — no tab query, no discard attempt, and the
tracker map is returned unchanged. -/
theorem scan_disabled_noop (s : Settings) (tabs : List Tab) (now : Int)
    (tr : Tracker) (ok : Nat → Bool) (h : s.enabled = false) :
    checkAndDiscardInactiveTabs s tabs now tr ok =
      { count := 0, tracker := tr, evicted := [], attempted := [],
        queried := false } := by
  simp [checkAndDiscardInactiveTabs, h]

/-- Witness for C7 at concrete disabled settings. -/
theorem scan_disabled_noop_witness :
    checkAndDiscardInactiveTabs sOff tabsA 100000 trA okTrue =
      { count := 0, tracker := trA, evicted := [], attempted := [],
        queried := false } :=
  scan_disabled_noop sOff tabsA 100000 trA okTrue rfl

/-- Claim C5: a non-excluded tab whose tracker lookup is falsy gets the
synthesized timestamp `now - (timeoutMs + 1000)` persisted into the map,
and — the synthesized idle time exceeding the timeout — is discarded in
the same pass, provided the floor is not reached and the discard
succeeds. -/
theorem scan_untracked_evicted_same_pass
    (s : Settings) (now timeoutMs eligLen : Int) (ok : Nat → Bool)
    (tab : Tab) (rest : List Tab) (st : ScanState)
    (hex : scanExcludes s tab = false)
    (hun : jsFalsy (st.tracker tab.id) = true)
    (hfloor : s.minTabs < eligLen - (st.count : Int))
    (hok : ok tab.id = true) :
    scanLoop s now timeoutMs eligLen ok (tab :: rest) st =
      scanLoop s now timeoutMs eligLen ok rest
        { count := st.count + 1,
          tracker := Tracker.set st.tracker tab.id (now - (timeoutMs + 1000)),
          evicted := st.evicted ++ [tab.id],
          attempted := st.attempted ++ [tab.id] } := by
  have hla : resolvedLastActive st.tracker tab.id now timeoutMs =
      now - (timeoutMs + 1000) := by
    simp [resolvedLastActive, hun]
  have htr : trackerAfterResolve st.tracker tab.id now timeoutMs =
      Tracker.set st.tracker tab.id (now - (timeoutMs + 1000)) := by
    simp [trackerAfterResolve, hun]
  simp only [scanLoop, hex, Bool.false_eq_true, if_false, hla, htr]
  rw [if_pos (by omega), if_neg (by omega), if_pos hok]

/-- Witness for C5: tab 9 is untracked in `trA`, the floor is not reached,
and the discard succeeds, so it is evicted in the same pass. -/
theorem scan_untracked_evicted_same_pass_witness :
    scanLoop sA 100000 30000 4 okTrue (plainTab 9 :: [])
        { count := 0, tracker := trA, evicted := [], attempted := [] } =
      scanLoop sA 100000 30000 4 okTrue []
        { count := 1,
          tracker := Tracker.set trA 9 (100000 - (30000 + 1000)),
          evicted := [] ++ [9],
          attempted := [] ++ [9] } :=
  scan_untracked_evicted_same_pass sA 100000 30000 4 okTrue (plainTab 9) [] _
    (by decide) (by decide) (by decide) rfl

/-- Claim C10: a tracked timestamp equal to 0 is treated by the scan
exactly like a missing record: the resolved timestamp is the synthesized
`now - (timeoutMs + 1000)`, this value overwrites the record, and the
whole scan step behaves identically to the same state with the record
deleted. -/
theorem scan_zero_timestamp_as_untracked
    (s : Settings) (now timeoutMs eligLen : Int) (ok : Nat → Bool)
    (tab : Tab) (rest : List Tab) (st : ScanState)
    (h0 : st.tracker tab.id = some 0)
    (hex : scanExcludes s tab = false) :
    resolvedLastActive st.tracker tab.id now timeoutMs =
      now - (timeoutMs + 1000) ∧
    trackerAfterResolve st.tracker tab.id now timeoutMs =
      Tracker.set st.tracker tab.id (now - (timeoutMs + 1000)) ∧
    scanLoop s now timeoutMs eligLen ok (tab :: rest) st =
      scanLoop s now timeoutMs eligLen ok (tab :: rest)
        { st with tracker := fun k => if k = tab.id then none else st.tracker k } := by
  have hun : jsFalsy (st.tracker tab.id) = true := by rw [h0]; rfl
  have hsetEq : Tracker.set st.tracker tab.id (now - (timeoutMs + 1000)) =
      Tracker.set (fun k => if k = tab.id then none else st.tracker k) tab.id
        (now - (timeoutMs + 1000)) := by
    funext k
    by_cases hk : k = tab.id <;> simp [Tracker.set, hk]
  refine ⟨by simp [resolvedLastActive, hun], by simp [trackerAfterResolve, hun], ?_⟩
  simp only [scanLoop, hex, Bool.false_eq_true, if_false, resolvedLastActive,
    trackerAfterResolve, h0, jsFalsy, beq_self_eq_true, eq_self_iff_true, if_true]
  rw [hsetEq]

/-- Witness for C5 is above; witness tracker for C10: tab 9 tracked with
timestamp 0. -/
def trZero : Tracker := Tracker.set trA 9 0

/-- Witness for C10 at a concrete tab whose tracked timestamp is 0. -/
theorem scan_zero_timestamp_as_untracked_witness :
    resolvedLastActive trZero 9 100000 30000 = 100000 - (30000 + 1000) ∧
    trackerAfterResolve trZero 9 100000 30000 =
      Tracker.set trZero 9 (100000 - (30000 + 1000)) ∧
    scanLoop sA 100000 30000 4 okTrue (plainTab 9 :: [])
        { count := 0, tracker := trZero, evicted := [], attempted := [] } =
      scanLoop sA 100000 30000 4 okTrue (plainTab 9 :: [])
        { count := 0, tracker := fun k => if k = 9 then none else trZero k,
          evicted := [], attempted := [] } :=
  scan_zero_timestamp_as_untracked sA 100000 30000 4 okTrue (plainTab 9) []
    { count := 0, tracker := trZero, evicted := [], attempted := [] }
    (by decide) (by decide)

/-- The scan loop never pushes the eviction count past
`eligLen - minTabs` (relative to the count it starts from): every discard
is guarded by the floor check. -/
theorem scanLoop_count_le (s : Settings) (now timeoutMs eligLen : Int)
    (ok : Nat → Bool) :
    ∀ (l : List Tab) (st : ScanState),
      ((scanLoop s now timeoutMs eligLen ok l st).count : Int) ≤
        max (st.count : Int) (eligLen - s.minTabs) := by
  intro l
  induction l with
  | nil =>
    intro st
    simp only [scanLoop]
    exact le_max_left _ _
  | cons tab rest ih =>
    intro st
    simp only [scanLoop]
    by_cases hex : scanExcludes s tab
    · simp only [hex, if_true]
      exact ih st
    · simp only [hex, Bool.false_eq_true, if_false]
      by_cases hidle :
          now - resolvedLastActive st.tracker tab.id now timeoutMs > timeoutMs
      · rw [if_pos hidle]
        by_cases hfloor : eligLen - (st.count : Int) ≤ s.minTabs
        · rw [if_pos hfloor]
          exact le_max_left _ _
        · rw [if_neg hfloor]
          by_cases hok : ok tab.id
          · rw [if_pos hok]
            refine (ih _).trans ?_
            have h2 : ((st.count : Int) + 1) ≤ eligLen - s.minTabs := by omega
            simp only [Nat.cast_add, Nat.cast_one]
            exact max_le (h2.trans (le_max_right _ _)) (le_max_right _ _)
          · rw [if_neg hok]
            exact ih _
      · rw [if_neg hidle]
        exact ih _

/-- Claim C1: when a tab has passed the exclusion and idle checks but the
remaining eligible pool is at or below `minTabs`, the scan loop stops
entirely (break): the rest of the enumeration is not visited and the
state is returned with only the lazy-tracking update applied; and
consequently a scheduled scan's returned count never exceeds
`max 0 (eligiblePool.length - minTabs)`. -/
theorem scan_floor_break
    (s : Settings) (now timeoutMs eligLen : Int) (ok : Nat → Bool)
    (tab : Tab) (rest : List Tab) (st : ScanState)
    (tabs : List Tab) (tr : Tracker)
    (hex : scanExcludes s tab = false)
    (hidle : now - resolvedLastActive st.tracker tab.id now timeoutMs > timeoutMs)
    (hfloor : eligLen - (st.count : Int) ≤ s.minTabs) :
    scanLoop s now timeoutMs eligLen ok (tab :: rest) st =
      { st with tracker := trackerAfterResolve st.tracker tab.id now timeoutMs } ∧
    ((checkAndDiscardInactiveTabs s tabs now tr ok).count : Int) ≤
      max 0 ((eligibleCount tabs : Int) - s.minTabs) := by
  constructor
  · simp only [scanLoop, hex, Bool.false_eq_true, if_false]
    rw [if_pos hidle, if_pos hfloor]
  · unfold checkAndDiscardInactiveTabs
    by_cases hen : s.enabled
    · simp only [hen, Bool.not_true, Bool.false_eq_true, if_false]
      simpa using scanLoop_count_le s now (s.inactiveTimeout * 1000)
        ((eligibleCount tabs : Int)) ok tabs
        { count := 0, tracker := tr, evicted := [], attempted := [] }
    · simp [Bool.not_eq_true] at hen
      simp [hen]

/-- Witness for C1: with an eligible pool of 1 and a floor of 1, the scan
breaks at the first idle tab, and Scenario A's count respects the bound. -/
theorem scan_floor_break_witness :
    scanLoop sA 100000 30000 1 okTrue (plainTab 9 :: plainTab 10 :: [])
        { count := 0, tracker := trA, evicted := [], attempted := [] } =
      { count := 0, tracker := trackerAfterResolve trA 9 100000 30000,
        evicted := [], attempted := [] } ∧
    ((checkAndDiscardInactiveTabs sA tabsA 100000 trA okTrue).count : Int) ≤
      max 0 ((eligibleCount tabsA : Int) - sA.minTabs) :=
  scan_floor_break sA 100000 30000 1 okTrue (plainTab 9) (plainTab 10 :: [])
    { count := 0, tracker := trA, evicted := [], attempted := [] }
    tabsA trA (by decide) (by decide) (by decide)

/-- The force-discard loop attempts a discard on exactly the tabs
`shouldExclude` lets through, in enumeration order. -/
theorem forceLoop_attempted (s : Settings) (ok : Nat → Bool) :
    ∀ tabs : List Tab,
      (forceLoop s ok tabs).attempted =
        (tabs.filter fun t => !shouldExclude s t).map Tab.id := by
  intro tabs
  induction tabs with
  | nil => rfl
  | cons tab rest ih =>
    by_cases h : shouldExclude s tab
    · simp [forceLoop, h, ih]
    · by_cases hok : ok tab.id <;> simp [forceLoop, h, hok, ih]

/-- The force-discard loop counts exactly the non-excluded tabs whose
discard succeeds. -/
theorem forceLoop_count (s : Settings) (ok : Nat → Bool) :
    ∀ tabs : List Tab,
      (forceLoop s ok tabs).count =
        ((tabs.filter fun t => !shouldExclude s t).filter fun t => ok t.id).length := by
  intro tabs
  induction tabs with
  | nil => rfl
  | cons tab rest ih =>
    by_cases h : shouldExclude s tab
    · simp [forceLoop, h, ih]
    · by_cases hok : ok tab.id <;> simp [forceLoop, h, hok, ih]

/-- Claim C6: the manual force-discard path attempts eviction on exactly
the tabs for which `shouldExclude` is false — no idle-timeout and no
floor — and returns the number of successful discards; in Scenario B
(5 tabs, 2 pinned, `excludePinned` on) it attempts exactly the 3
non-pinned tabs and returns 3. -/
theorem forceDiscard_exactly_nonexcluded (s : Settings) (tabs : List Tab)
    (ok : Nat → Bool) :
    (forceDiscardInactiveTabs s tabs ok).attempted =
      ((tabs.filter fun t => !shouldExclude s t).map Tab.id) ∧
    (forceDiscardInactiveTabs s tabs ok).count =
      ((tabs.filter fun t => !shouldExclude s t).filter fun t => ok t.id).length ∧
    (forceDiscardInactiveTabs sB tabsB okTrue).count = 3 ∧
    (forceDiscardInactiveTabs sB tabsB okTrue).attempted = [3, 4, 5] :=
  ⟨forceLoop_attempted s ok tabs, forceLoop_count s ok tabs, by decide, by decide⟩

/-- Scan-loop invariant: the count equals the number of successful
discards, and the successful discards are exactly the attempted ones the
oracle accepts. -/
theorem scanLoop_count_eq_evicted (s : Settings) (now timeoutMs eligLen : Int)
    (ok : Nat → Bool) :
    ∀ (l : List Tab) (st : ScanState),
      st.count = st.evicted.length → st.evicted = st.attempted.filter ok →
      (scanLoop s now timeoutMs eligLen ok l st).count =
          (scanLoop s now timeoutMs eligLen ok l st).evicted.length ∧
        (scanLoop s now timeoutMs eligLen ok l st).evicted =
          (scanLoop s now timeoutMs eligLen ok l st).attempted.filter ok := by
  intro l
  induction l with
  | nil =>
    intro st h1 h2
    simp only [scanLoop]
    exact ⟨h1, h2⟩
  | cons tab rest ih =>
    intro st h1 h2
    simp only [scanLoop]
    by_cases hex : scanExcludes s tab
    · simp only [hex, if_true]
      exact ih st h1 h2
    · simp only [hex, Bool.false_eq_true, if_false]
      by_cases hidle :
          now - resolvedLastActive st.tracker tab.id now timeoutMs > timeoutMs
      · rw [if_pos hidle]
        by_cases hfloor : eligLen - (st.count : Int) ≤ s.minTabs
        · rw [if_pos hfloor]
          exact ⟨h1, h2⟩
        · rw [if_neg hfloor]
          by_cases hok : ok tab.id
          · rw [if_pos hok]
            refine ih _ ?_ ?_
            · simp [h1]
            · simp [h2, List.filter_append, hok]
          · rw [if_neg hok]
            refine ih _ h1 ?_
            simp [h2, List.filter_append, hok]
      · rw [if_neg hidle]
        exact ih _ h1 h2

/-- Claim C8: in both the scheduled scan and the force-discard path a
failed discard is not counted — the returned count is exactly the number
of attempted discards the host accepted — and a failure at one tab lets
the loop continue to the rest of the enumeration. -/
theorem eviction_failure_nonfatal (s : Settings) (tabs : List Tab) (now : Int)
    (tr : Tracker) (ok : Nat → Bool) :
    ((checkAndDiscardInactiveTabs s tabs now tr ok).count =
        (checkAndDiscardInactiveTabs s tabs now tr ok).evicted.length ∧
      (checkAndDiscardInactiveTabs s tabs now tr ok).evicted =
        (checkAndDiscardInactiveTabs s tabs now tr ok).attempted.filter ok) ∧
    ((forceDiscardInactiveTabs s tabs ok).count =
        (forceDiscardInactiveTabs s tabs ok).evicted.length ∧
      (forceDiscardInactiveTabs s tabs ok).evicted =
        (forceDiscardInactiveTabs s tabs ok).attempted.filter ok) ∧
    (∀ (timeoutMs eligLen : Int) (tab : Tab) (rest : List Tab) (st : ScanState),
      scanExcludes s tab = false →
      now - resolvedLastActive st.tracker tab.id now timeoutMs > timeoutMs →
      s.minTabs < eligLen - (st.count : Int) →
      ok tab.id = false →
      scanLoop s now timeoutMs eligLen ok (tab :: rest) st =
        scanLoop s now timeoutMs eligLen ok rest
          { count := st.count,
            tracker := trackerAfterResolve st.tracker tab.id now timeoutMs,
            evicted := st.evicted,
            attempted := st.attempted ++ [tab.id] }) := by
  refine ⟨?_, ?_, ?_⟩
  · unfold checkAndDiscardInactiveTabs
    by_cases hen : s.enabled
    · simp only [hen, Bool.not_true, Bool.false_eq_true, if_false]
      exact scanLoop_count_eq_evicted s now (s.inactiveTimeout * 1000)
        ((eligibleCount tabs : Int)) ok tabs
        { count := 0, tracker := tr, evicted := [], attempted := [] } rfl rfl
    · simp [Bool.not_eq_true] at hen
      simp [hen]
  · induction tabs with
    | nil => exact ⟨rfl, rfl⟩
    | cons tab rest ih =>
      unfold forceDiscardInactiveTabs at ih ⊢
      by_cases h : shouldExclude s tab
      · simpa [forceLoop, h] using ih
      · by_cases hok : ok tab.id
        · simp only [forceLoop, h, Bool.false_eq_true, if_false, hok, if_true]
          constructor
          · simp [ih.1]
          · simp [hok, ih.2]
        · simp only [forceLoop, h, Bool.false_eq_true, if_false, hok]
          constructor
          · simp [ih.1]
          · simp [hok, ih.2]
  · intro timeoutMs eligLen tab rest st hex hidle hfloor hok
    simp only [scanLoop, hex, Bool.false_eq_true, if_false]
    rw [if_pos hidle, if_neg (by omega), if_neg ?_]
    simp [hok]

/-- A discard oracle under which every discard fails. -/
def okFalse : Nat → Bool := fun _ => false

/-- Witness for C8: every discard fails, the first idle tab is attempted,
not counted, and the loop continues past it. -/
theorem eviction_failure_nonfatal_witness :
    ((checkAndDiscardInactiveTabs sA tabsA 100000 trA okFalse).count =
        (checkAndDiscardInactiveTabs sA tabsA 100000 trA okFalse).evicted.length ∧
      (checkAndDiscardInactiveTabs sA tabsA 100000 trA okFalse).evicted =
        (checkAndDiscardInactiveTabs sA tabsA 100000 trA okFalse).attempted.filter okFalse) ∧
    ((forceDiscardInactiveTabs sA tabsA okFalse).count =
        (forceDiscardInactiveTabs sA tabsA okFalse).evicted.length ∧
      (forceDiscardInactiveTabs sA tabsA okFalse).evicted =
        (forceDiscardInactiveTabs sA tabsA okFalse).attempted.filter okFalse) ∧
    scanLoop sA 100000 30000 4 okFalse (plainTab 9 :: plainTab 10 :: [])
        { count := 0, tracker := trA, evicted := [], attempted := [] } =
      scanLoop sA 100000 30000 4 okFalse (plainTab 10 :: [])
        { count := 0, tracker := trackerAfterResolve trA 9 100000 30000,
          evicted := [], attempted := [] ++ [9] } := by
  have h := eviction_failure_nonfatal sA tabsA 100000 trA okFalse
  exact ⟨h.1, h.2.1, h.2.2 30000 4 (plainTab 9) (plainTab 10 :: [])
    { count := 0, tracker := trA, evicted := [], attempted := [] }
    (by decide) (by decide) (by decide) rfl⟩

/-- After `initializeTabTracking`, every enumerated tab's record is the
seeding time (tabs not in the snapshot keep their old record). -/
theorem initializeTabTracking_lookup (now : Int) :
    ∀ (tabs : List Tab) (tr : Tracker) (t : Tab),
      (tr t.id = some now ∨ t ∈ tabs) →
      initializeTabTracking tabs now tr t.id = some now := by
  intro tabs
  induction tabs with
  | nil =>
    intro tr t h
    rcases h with h | h
    · simpa [initializeTabTracking] using h
    · cases h
  | cons tab rest ih =>
    intro tr t h
    simp only [initializeTabTracking, ite_self]
    apply ih
    rcases h with h | h
    · by_cases hk : t.id = tab.id
      · left
        simp [Tracker.set, hk]
      · left
        simpa [Tracker.set, hk] using h
    · rcases List.mem_cons.mp h with rfl | h
      · left
        simp [Tracker.set]
      · right
        exact h
/-- A scan over tabs that are all tracked at the current (nonzero) time
changes nothing: no tab is idle past a nonnegative timeout. -/
theorem scanLoop_all_fresh (s : Settings) (now timeoutMs eligLen : Int)
    (ok : Nat → Bool) (hnow : now ≠ 0) (htms : 0 ≤ timeoutMs) :
    ∀ (l : List Tab) (st : ScanState),
      (∀ t ∈ l, st.tracker t.id = some now) →
      scanLoop s now timeoutMs eligLen ok l st = st := by
  intro l
  induction l with
  | nil =>
    intro st h
    rfl
  | cons tab rest ih =>
    intro st h
    have ht := h tab (List.mem_cons_self tab rest)
    have hfal : jsFalsy (some now) = false := by
      simp [jsFalsy, hnow]
    have hla : resolvedLastActive st.tracker tab.id now timeoutMs = now := by
      simp [resolvedLastActive, ht, hfal]
    have htr : trackerAfterResolve st.tracker tab.id now timeoutMs = st.tracker := by
      simp [trackerAfterResolve, ht, hfal]
    simp only [scanLoop]
    by_cases hex : scanExcludes s tab
    · simp only [hex, if_true]
      exact ih st fun t htl => h t (List.mem_cons_of_mem _ htl)
    · simp only [hex, Bool.false_eq_true, if_false, hla, htr]
      rw [if_neg (by omega)]
      exact ih st fun t htl => h t (List.mem_cons_of_mem _ htl)

/-- Claim C9: re-initializing the tracker from a snapshot seeds every
enumerated tab at the current time, so a scheduled scan run immediately
afterwards (same nonzero `now`, positive timeout) evicts nothing and
returns 0, no matter how idle the tabs were before. -/
theorem init_then_scan_evicts_nothing
    (s : Settings) (tabs : List Tab) (now : Int) (tr : Tracker)
    (ok : Nat → Bool) (hpos : 0 < s.inactiveTimeout) (hnow : now ≠ 0) :
    (checkAndDiscardInactiveTabs s tabs now
        (initializeTabTracking tabs now tr) ok).count = 0 ∧
    (checkAndDiscardInactiveTabs s tabs now
        (initializeTabTracking tabs now tr) ok).evicted = [] := by
  unfold checkAndDiscardInactiveTabs
  by_cases hen : s.enabled
  · simp only [hen, Bool.not_true, Bool.false_eq_true, if_false]
    have htms : (0 : Int) ≤ s.inactiveTimeout * 1000 := by omega
    rw [scanLoop_all_fresh s now (s.inactiveTimeout * 1000)
      ((eligibleCount tabs : Int)) ok hnow htms tabs
      { count := 0, tracker := initializeTabTracking tabs now tr,
        evicted := [], attempted := [] }
      (fun t ht => initializeTabTracking_lookup now tabs tr t (Or.inr ht))]
    exact ⟨rfl, rfl⟩
  · simp [Bool.not_eq_true] at hen
    simp [hen]

/-- An initially empty tracker, for the C9 witness. -/
def trEmpty : Tracker := fun _ => none

/-- Witness for C9: Scenario A tabs, empty tracker re-seeded at
`now = 100000`, scan returns 0 and evicts nothing. -/
theorem init_then_scan_evicts_nothing_witness :
    (checkAndDiscardInactiveTabs sA tabsA 100000
        (initializeTabTracking tabsA 100000 trEmpty) okTrue).count = 0 ∧
    (checkAndDiscardInactiveTabs sA tabsA 100000
        (initializeTabTracking tabsA 100000 trEmpty) okTrue).evicted = [] :=
  init_then_scan_evicts_nothing sA tabsA 100000 trEmpty okTrue
    (by decide) (by decide)
